import Mathlib

/-!
Shallow embedding of the client-side row-set model of the two warehouse
delivery forms of the repository: `EntregaArticulos`
(src/static/js/bodega/entrega-articulos.js) and `EntregaBienes` (the
goods-delivery form).  DOM inputs are modelled by their values
(`Option` marks a missing element or attribute), JavaScript numbers by
`Option ℚ` with `none` playing the role of `NaN`, and the observable
effects of a submit handler (alert shown, hidden-field write, form
submission) by an explicit `Effects` record.
-/

namespace Colegio

/-- Characters treated as leading whitespace by the JS numeric parsers. -/
def isJsSpace (c : Char) : Bool :=
  c = ' ' || c = '\t' || c = '\n' || c = '\r' || c = '\x0c'

/-- Splits an optional leading sign, returning `true` for a minus sign. -/
def splitSign : List Char → Bool × List Char
  | '-' :: rest => (true, rest)
  | '+' :: rest => (false, rest)
  | cs => (false, cs)

/-- Longest run of leading decimal digits, and the remainder. -/
def takeDigits (cs : List Char) : List Char × List Char :=
  (cs.takeWhile Char.isDigit, cs.dropWhile Char.isDigit)

/-- Value of a run of decimal digits. -/
def digitsToNat (ds : List Char) : Nat :=
  ds.foldl (fun a c => 10 * a + (c.toNat - 48)) 0

/-- Exponent part of a JS float literal: sign and digits after `e`/`E`;
an empty digit run leaves the exponent at 0 (JS leaves the `e` unconsumed). -/
def parseExpPart (cs : List Char) : Int :=
  let (neg, cs1) := splitSign cs
  let (ds, _) := takeDigits cs1
  if ds.isEmpty then 0
  else if neg then -(digitsToNat ds : Int) else (digitsToNat ds : Int)

/-- Model of JS `parseFloat` on the decimal forms a number input can hold:
skip leading whitespace, optional sign, digits, optional fraction, optional
exponent, ignore any trailing text; `none` models `NaN` (no digits found).
(`Infinity` literals are outside the modelled input space.) -/
def parseFloatJS (s : String) : Option ℚ :=
  let cs0 := s.toList.dropWhile isJsSpace
  let (neg, cs1) := splitSign cs0
  let (intDs, cs2) := takeDigits cs1
  let (fracDs, cs3) :=
    match cs2 with
    | '.' :: rest => takeDigits rest
    | _ => ([], cs2)
  if intDs.isEmpty && fracDs.isEmpty then none
  else
    let expo : Int :=
      match cs3 with
      | 'e' :: rest => parseExpPart rest
      | 'E' :: rest => parseExpPart rest
      | _ => 0
    let mantNum : Nat := digitsToNat intDs * 10 ^ fracDs.length + digitsToNat fracDs
    let signed : Int := if neg then -(mantNum : Int) else (mantNum : Int)
    some (match expo with
      | .ofNat e => mkRat (signed * ((10 ^ e : Nat) : Int)) (10 ^ fracDs.length)
      | .negSucc e => mkRat signed (10 ^ fracDs.length * 10 ^ (e + 1)))

/-- Model of JS `parseInt` with no radix argument on decimal input:
skip leading whitespace, optional sign, longest digit run, ignore the
rest; `none` models `NaN`.  (Hexadecimal `0x` prefixes never occur in the
forms' numeric inputs and are not modelled.) -/
def parseIntJS (s : String) : Option Int :=
  let cs0 := s.toList.dropWhile isJsSpace
  let (neg, cs1) := splitSign cs0
  let (ds, _) := takeDigits cs1
  if ds.isEmpty then none
  else some (if neg then -(digitsToNat ds : Int) else (digitsToNat ds : Int))

/-- JS `getAttribute` returns `null` for a missing attribute and
`parseFloat(null)` is `NaN`; so a missing attribute parses to `none`. -/
def parseFloatAttr : Option String → Option ℚ
  | some s => parseFloatJS s
  | none => none

/-- JS `>` on numbers: any comparison involving `NaN` is false. -/
def jsGt : Option ℚ → Option ℚ → Bool
  | some a, some b => decide (b < a)
  | _, _ => false

/-- JS `<=` on numbers: any comparison involving `NaN` is false. -/
def jsLe : Option ℚ → Option ℚ → Bool
  | some a, some b => decide (a ≤ b)
  | _, _ => false

/-- JS `<=` between a parsed integer (possibly `NaN`) and an integer. -/
def jsLeInt : Option Int → Int → Bool
  | some a, k => decide (a ≤ k)
  | none, _ => false

/-- JS `a || b` on two nullable strings (`""` and `null` are falsy). -/
def jsOrStr : Option String → Option String → Option String
  | some a, b => if a = "" then b else some a
  | none, b => b

/-- JS `v || null` on a string: the empty string collapses to `null`. -/
def jsOrNullStr : Option String → Option String
  | some v => if v = "" then none else some v
  | none => none

/-- JS truthiness filter on a parsed integer: `NaN` and `0` are falsy. -/
def jsTruthyInt : Option Int → Option Int
  | some n => if n = 0 then none else some n
  | none => none

/-- JavaScript values that can reach `escapeHtml` in these modules:
`null`, `undefined`, strings, integral-or-`NaN` numbers, booleans. -/
inductive JsVal where
  | vnull
  | vundefined
  | vstr (s : String)
  | vnum (n : Option Int)
  | vbool (b : Bool)
deriving DecidableEq

/-- JS falsiness: `null`, `undefined`, `""`, `0`, `NaN`, `false`. -/
def jsFalsy : JsVal → Bool
  | .vnull => true
  | .vundefined => true
  | .vstr s => s = ""
  | .vnum none => true
  | .vnum (some n) => n = 0
  | .vbool b => !b

/-- JS `toString` on the modelled values. -/
def jsToString : JsVal → String
  | .vnull => "null"
  | .vundefined => "undefined"
  | .vstr s => s
  | .vnum none => "NaN"
  | .vnum (some n) => toString n
  | .vbool b => if b then "true" else "false"

/-- Global single-character replacement, the semantics of
`String.prototype.replace` with a one-character global regex. -/
def replaceCharAll (c : Char) (rep : String) (s : String) : String :=
  String.join (s.toList.map (fun ch => if ch = c then rep else String.singleton ch))

/-- The five chained replacements of `escapeHtml`, in source order:
`&`, `<`, `>`, `"`, `'`. -/
def escapeHtmlStr (s : String) : String :=
  replaceCharAll '\x27' "&#039;"
    (replaceCharAll '"' "&quot;"
      (replaceCharAll '>' "&gt;"
        (replaceCharAll '<' "&lt;"
          (replaceCharAll '&' "&amp;" s))))

/-- `escapeHtml(unsafe)`: identical in `EntregaArticulos` and
`EntregaBienes` — falsy input yields `''`, otherwise `toString` then the
five entity replacements. -/
def escapeHtml (v : JsVal) : String :=
  if jsFalsy v then "" else escapeHtmlStr (jsToString v)

/-- JSON values, as produced by `JSON.stringify` (object fields keep
insertion order; `NaN` serialises as `null`). -/
inductive Json where
  | null
  | num (q : ℚ)
  | str (s : String)
  | arr (elems : List Json)
  | obj (fields : List (String × Json))

/-- Key list of a JSON object (empty for non-objects). -/
def Json.keys : Json → List String
  | .obj fs => fs.map Prod.fst
  | _ => []

/-- JSON image of a parsed integer (`NaN` → `null`). -/
def jnumInt : Option Int → Json
  | some n => .num (n : ℚ)
  | none => .null

/-- JSON image of a parsed float (`NaN` → `null`). -/
def jnumQ : Option ℚ → Json
  | some q => .num q
  | none => .null

/-- JSON image of a nullable string. -/
def jstrOpt : Option String → Json
  | some s => .str s
  | none => .null

/-- User-facing alert messages of the two submit handlers and the
request-lines loader, abstracted by kind with their interpolated values. -/
inductive Alert where
  | debeAgregarArticulo
  | debeAgregarBien
  | seleccioneArticulo
  | seleccioneActivoBien
  | ingreseCantidadValida
  | excedePendiente (cantidad pendiente : Option ℚ)
  | excedeStockEntrega (cantidad stock : Option ℚ)
  | excedeStockSolicitada (cantidad stock : Option ℚ)
  | errorCargarArticulos (detalle : Option String)
  | errorCargarArticulosCatch
deriving DecidableEq

namespace EntregaArticulos

/-- The `cantidad_<i>` number input of a row: its value and the
`data-pendiente` / `data-stock` attributes (set only on linked rows). -/
structure InputCantidad where
  value : String
  dataPendiente : Option String
  dataStock : Option String
deriving DecidableEq

/-- The `articulo_<i>` element of a row: a hidden input (linked mode) or
a select (manual mode).  `value` is the element's value;
`selectedDataStock` is the `data-stock` attribute of the selected option
(meaningful only for the manual-mode select). -/
structure ArticuloField where
  value : String
  selectedDataStock : Option String
deriving DecidableEq

/-- The elements of row `i` that `validarYEnviarFormulario` looks up by
id; `none` marks an element that `getElementById` does not find. -/
structure FilaDom where
  cantidad : Option InputCantidad
  lote : Option String
  articulo : Option ArticuloField
  detalleSolicitud : Option String
deriving DecidableEq

/-- `getElementById('fila_' + i)` over the row table. -/
def getFila (filas : List (Option FilaDom)) (i : Nat) : Option FilaDom :=
  (filas.getD i none)

/-- One record of the serialized `detalles` array.  `articulo_id` and
`cantidad` are parse results (`none` = `NaN`); `lote` is nullable;
`detalle_solicitud_id` is attached only when truthy. -/
structure Detalle where
  articulo_id : Option Int
  cantidad : Option ℚ
  lote : Option String
  detalle_solicitud_id : Option Int
deriving DecidableEq

/-- `validarCantidadSolicitud(inputCantidad)`: parses the value and the
two data attributes, rejects first when the quantity exceeds the pending
amount, then when it exceeds the stock snapshot. -/
def validarCantidadSolicitud (inputCantidad : InputCantidad) : Option Colegio.Alert :=
  let cantidadPendiente := Colegio.parseFloatAttr inputCantidad.dataPendiente
  let cantidadAEntregar := Colegio.parseFloatJS inputCantidad.value
  let stockDisponible := Colegio.parseFloatAttr inputCantidad.dataStock
  if Colegio.jsGt cantidadAEntregar cantidadPendiente then
    some (.excedePendiente cantidadAEntregar cantidadPendiente)
  else if Colegio.jsGt cantidadAEntregar stockDisponible then
    some (.excedeStockEntrega cantidadAEntregar stockDisponible)
  else none

/-- `validarStockDisponible(selectArticulo, inputCantidad)`: manual-mode
check of the quantity against the selected option's `data-stock`. -/
def validarStockDisponible (a : ArticuloField) (c : InputCantidad) : Option Colegio.Alert :=
  let stockDisponible := Colegio.parseFloatAttr a.selectedDataStock
  let cantidadSolicitada := Colegio.parseFloatJS c.value
  if Colegio.jsGt cantidadSolicitada stockDisponible then
    some (.excedeStockSolicitada cantidadSolicitada stockDisponible)
  else none

/-- Outcome of processing one row inside the submit loop: silently
skipped (`continue`), rejected with an alert (`return false`), or passed
with the record pushed onto `detalles`. -/
inductive RowRes where
  | skip
  | reject (a : Colegio.Alert)
  | pass (d : Detalle)
deriving DecidableEq

/-- Tail of the loop body shared by both modes: the
`!inputCantidad.value || parseFloat(inputCantidad.value) <= 0` guard,
then the construction of the `detalle` record (with
`detalle_solicitud_id` attached only when truthy). -/
def detalleDe (articuloId : Option Int) (dsid : Option Int)
    (c : InputCantidad) (lote : Option String) : RowRes :=
  if c.value = "" ∨ Colegio.jsLe (Colegio.parseFloatJS c.value) (some 0) then
    .reject .ingreseCantidadValida
  else
    .pass { articulo_id := articuloId
            cantidad := Colegio.parseFloatJS c.value
            lote := Colegio.jsOrNullStr lote
            detalle_solicitud_id := dsid }

/-- The per-row body of `validarYEnviarFormulario`, lines 385–439 of the
source: missing `cantidad_<i>` skips the row; linked mode skips when the
hidden `articulo_<i>` / `detalle_solicitud_<i>` inputs are missing and
runs `validarCantidadSolicitud`; manual mode rejects an unselected (or
missing) select and runs `validarStockDisponible`. -/
def rowStep (esSolicitud : Bool) (f : FilaDom) : RowRes :=
  match f.cantidad with
  | none => .skip
  | some c =>
    if esSolicitud then
      match f.articulo, f.detalleSolicitud with
      | some a, some dsv =>
        match validarCantidadSolicitud c with
        | some al => .reject al
        | none =>
          detalleDe (Colegio.parseIntJS a.value)
            (Colegio.jsTruthyInt (Colegio.parseIntJS dsv)) c f.lote
      | _, _ => .skip
    else
      match f.articulo with
      | none => .reject .seleccioneArticulo
      | some a =>
        if a.value = "" then .reject .seleccioneArticulo
        else
          match validarStockDisponible a c with
          | some al => .reject al
          | none => detalleDe (Colegio.parseIntJS a.value) none c f.lote

/-- Result of the whole `for` loop: either the first rejection's alert
or the accumulated list of records. -/
inductive LoopResult (α : Type) where
  | rejected (a : Colegio.Alert)
  | ok (ds : List α)
deriving DecidableEq

/-- The `for (let i = 0; i < this.contadorFilas; i++)` loop: `i` is the
current index, the second argument the number of indices left. -/
def itemsLoop (esSolicitud : Bool) (filas : List (Option FilaDom)) :
    Nat → Nat → LoopResult Detalle
  | _, 0 => .ok []
  | i, n + 1 =>
    match getFila filas i with
    | none => itemsLoop esSolicitud filas (i + 1) n
    | some f =>
      match rowStep esSolicitud f with
      | .skip => itemsLoop esSolicitud filas (i + 1) n
      | .reject a => .rejected a
      | .pass d =>
        match itemsLoop esSolicitud filas (i + 1) n with
        | .rejected a => .rejected a
        | .ok ds => .ok (d :: ds)

/-- `JSON.stringify` image of one record: keys in insertion order, the
linking key present only when it was attached. -/
def serializeDetalle (d : Detalle) : Colegio.Json :=
  .obj ([("articulo_id", Colegio.jnumInt d.articulo_id),
         ("cantidad", Colegio.jnumQ d.cantidad),
         ("lote", Colegio.jstrOpt d.lote)] ++
        (match d.detalle_solicitud_id with
         | some n => [("detalle_solicitud_id", Colegio.Json.num (n : ℚ))]
         | none => []))

/-- The parts of the page `validarYEnviarFormulario` reads: the row
container (`none` = missing; otherwise the cell count of each child
row, the empty-state placeholder being a single-cell row), the rows by
index, and whether the hidden `detallesJson` field exists. -/
structure Dom where
  tbodyCells : Option (List Nat)
  filas : List (Option FilaDom)
  detallesJsonExists : Bool

/-- Observable effects of a submit handler: the alert raised (if any),
the JSON written to `detallesJson` (if any), and whether
`e.target.submit()` ran. -/
structure Effects where
  alert : Option Colegio.Alert
  jsonWritten : Option Colegio.Json
  formSubmitted : Bool

/-- An early `return false`: alert only, nothing written, no submit. -/
def rejectEff (a : Colegio.Alert) : Effects :=
  { alert := some a, jsonWritten := none, formSubmitted := false }

/-- `validarYEnviarFormulario(e)` of `EntregaArticulos`: empty-table
guard, the row loop, then the `detallesJson` write and `e.target.submit()`. -/
def validarYEnviarFormulario (esSolicitud : Bool) (contadorFilas : Nat)
    (dom : Dom) : Effects :=
  match dom.tbodyCells with
  | none => rejectEff .debeAgregarArticulo
  | some cells =>
    match cells with
    | [] => rejectEff .debeAgregarArticulo
    | c0 :: _ =>
      if c0 = 1 then rejectEff .debeAgregarArticulo
      else
        match itemsLoop esSolicitud dom.filas 0 contadorFilas with
        | .rejected a => rejectEff a
        | .ok ds =>
          { alert := none
            jsonWritten :=
              if dom.detallesJsonExists then
                some (.arr (ds.map serializeDetalle))
              else none
            formSubmitted := true }

end EntregaArticulos

namespace EntregaBienes

/-- The elements of row `i` that the goods-form submit handler looks up:
the `activo_<i>` select, the `cantidad_<i>`, `serie_<i>` and
`estado_fisico_<i>` inputs, each modelled by its value (`none` = element
missing). -/
structure BFilaDom where
  activo : Option String
  cantidad : Option String
  serie : Option String
  estado : Option String
deriving DecidableEq

/-- `getElementById('fila_' + i)` over the goods row table. -/
def getFilaB (filas : List (Option BFilaDom)) (i : Nat) : Option BFilaDom :=
  (filas.getD i none)

/-- One record of the goods `detalles` array. -/
structure BDetalle where
  equipo_id : Option Int
  cantidad : Option Int
  numero_serie : Option String
  estado_fisico : Option String
deriving DecidableEq

/-- The per-row body of the goods `validarYEnviarFormulario`: a missing
or unselected activo rejects, then a missing/empty/`parseInt(...) <= 0`
quantity rejects, otherwise the record is built. -/
def rowCheckB (f : BFilaDom) : Except Colegio.Alert BDetalle :=
  match f.activo with
  | none => .error .seleccioneActivoBien
  | some av =>
    if av = "" then .error .seleccioneActivoBien
    else
      match f.cantidad with
      | none => .error .ingreseCantidadValida
      | some cv =>
        if cv = "" ∨ Colegio.jsLeInt (Colegio.parseIntJS cv) 0 then
          .error .ingreseCantidadValida
        else
          .ok { equipo_id := Colegio.parseIntJS av
                cantidad := Colegio.parseIntJS cv
                numero_serie := Colegio.jsOrNullStr f.serie
                estado_fisico := Colegio.jsOrNullStr f.estado }

/-- The goods `for` loop over row indices: missing `fila_<i>` elements
are skipped, the first violating row aborts with its alert. -/
def bienesLoop (filas : List (Option BFilaDom)) :
    Nat → Nat → EntregaArticulos.LoopResult BDetalle
  | _, 0 => .ok []
  | i, n + 1 =>
    match getFilaB filas i with
    | none => bienesLoop filas (i + 1) n
    | some f =>
      match rowCheckB f with
      | .error a => .rejected a
      | .ok d =>
        match bienesLoop filas (i + 1) n with
        | .rejected a => .rejected a
        | .ok ds => .ok (d :: ds)

/-- `JSON.stringify` image of one goods record. -/
def serializeBDetalle (d : BDetalle) : Colegio.Json :=
  .obj [("equipo_id", Colegio.jnumInt d.equipo_id),
        ("cantidad", Colegio.jnumInt d.cantidad),
        ("numero_serie", Colegio.jstrOpt d.numero_serie),
        ("estado_fisico", Colegio.jstrOpt d.estado_fisico)]

/-- The parts of the page the goods submit handler reads. -/
structure BDom where
  tbodyCells : Option (List Nat)
  filas : List (Option BFilaDom)
  detallesJsonExists : Bool

/-- `validarYEnviarFormulario(e)` of `EntregaBienes`: empty-table guard,
the row loop, then the `detallesJson` write and `e.target.submit()`. -/
def validarYEnviarFormularioBienes (contadorFilas : Nat) (dom : BDom) :
    EntregaArticulos.Effects :=
  match dom.tbodyCells with
  | none => EntregaArticulos.rejectEff .debeAgregarBien
  | some cells =>
    match cells with
    | [] => EntregaArticulos.rejectEff .debeAgregarBien
    | c0 :: _ =>
      if c0 = 1 then EntregaArticulos.rejectEff .debeAgregarBien
      else
        match bienesLoop dom.filas 0 contadorFilas with
        | .rejected a => EntregaArticulos.rejectEff a
        | .ok ds =>
          { alert := none
            jsonWritten :=
              if dom.detallesJsonExists then
                some (.arr (ds.map serializeBDetalle))
              else none
            formSubmitted := true }

end EntregaBienes

namespace EntregaArticulos

/-- The item-form row table as the registry sees it: the next row index
(`contadorFilas`), the ids of the real rows present in document order,
and whether the single-cell empty-state placeholder row is shown. -/
structure Tabla where
  contadorFilas : Nat
  rows : List Nat
  emptyState : Bool
deriving DecidableEq

/-- Page-load state: no rows, placeholder shown, counter at 0. -/
def tablaInit : Tabla := { contadorFilas := 0, rows := [], emptyState := true }

/-- `tbody.children.length`: real rows plus the placeholder if shown. -/
def childCount (t : Tabla) : Nat :=
  t.rows.length + (if t.emptyState then 1 else 0)

/-- `limpiarTabla()`: replaces the body with the placeholder row and
resets `contadorFilas` to 0. -/
def limpiarTabla (_ : Tabla) : Tabla :=
  { contadorFilas := 0, rows := [], emptyState := true }

/-- `agregarArticulo()`: clears the single-cell placeholder if it is the
only child, inserts a row with id `contadorFilas`, and increments the
counter; returns the id handed out. -/
def agregarArticulo (t : Tabla) : Tabla × Nat :=
  let t1 :=
    if childCount t = 1 ∧ t.emptyState then { t with emptyState := false } else t
  ({ t1 with rows := t1.rows ++ [t1.contadorFilas],
             contadorFilas := t1.contadorFilas + 1 },
   t1.contadorFilas)

/-- `eliminarFila(idFila)`: removes the row if present; if the container
is then empty, `limpiarTabla()` runs (placeholder back, counter to 0). -/
def eliminarFila (t : Tabla) (id : Nat) : Tabla :=
  let t1 := { t with rows := t.rows.erase id }
  if childCount t1 = 0 then limpiarTabla t1 else t1

/-- `cargarArticulosEnTabla(articulos)`: clears the body; an empty list
renders the placeholder, otherwise one `agregarFilaSolicitud` row per
line is appended, each taking the next counter value (the counter is not
reset first). -/
def cargarArticulosEnTabla (t : Tabla) (n : Nat) : Tabla :=
  if n = 0 then { t with rows := [], emptyState := true }
  else
    { contadorFilas := t.contadorFilas + n,
      rows := List.range' t.contadorFilas n,
      emptyState := false }

/-- A user-driven registry operation: the add-row button or a row's
delete button. -/
inductive Op where
  | add
  | remove (id : Nat)
deriving DecidableEq

/-- One operation applied to the table, with the row id handed out. -/
def stepOp (t : Tabla) : Op → Tabla × Option Nat
  | .add => let p := agregarArticulo t; (p.1, some p.2)
  | .remove id => (eliminarFila t id, none)

/-- A whole session: the final table and all ids handed out, in order. -/
def runOps : Tabla → List Op → Tabla × List Nat
  | t, [] => (t, [])
  | t, op :: ops =>
    let p := stepOp t op
    let q := runOps p.1 ops
    (q.1, p.2.toList ++ q.2)

/-- Whether an operation triggers the `limpiarTabla` counter reset:
only a removal that leaves the container with no children does. -/
def opResets (t : Tabla) : Op → Bool
  | .add => false
  | .remove id => childCount { t with rows := t.rows.erase id } = 0

/-- No operation of the sequence empties the registry (and so none
resets the row counter). -/
def resetFree : Tabla → List Op → Bool
  | _, [] => true
  | t, op :: ops => !opResets t op && resetFree (stepOp t op).1 ops

/-- Request header data used by `mostrarInfoSolicitud` and the
auto-selection of the source warehouse. -/
structure Solicitud where
  numero : String
  solicitante : String
  departamento : String
  motivo : Option String
  bodega_origen_id : Option Int
deriving DecidableEq

/-- The HTML written to `datosSolicitud.innerHTML` by
`mostrarInfoSolicitud(solicitud)`: the template interpolates the four
metadata fields directly (no `escapeHtml` call on this path);
`motivo || 'N/A'` supplies the fallback. -/
def mostrarInfoSolicitudHtml (s : Solicitud) : String :=
  "\n            <p class=\"mb-1\"><strong>Número:</strong> " ++ s.numero ++
  "</p>\n            <p class=\"mb-1\"><strong>Solicitante:</strong> " ++ s.solicitante ++
  "</p>\n            <p class=\"mb-1\"><strong>Departamento:</strong> " ++ s.departamento ++
  "</p>\n            <p class=\"mb-0\"><strong>Motivo:</strong> " ++
  ((Colegio.jsOrStr s.motivo (some "N/A")).getD "") ++
  "</p>\n        "

/-- One line of the request-lines AJAX response. -/
structure SolArticulo where
  articulo_id : Int
  articulo_codigo : String
  articulo_nombre : String
  unidad_medida : String
  cantidad_pendiente : ℚ
  stock_actual : ℚ
  detalle_solicitud_id : Int
deriving DecidableEq

/-- Body of the request-lines AJAX response. -/
structure RespData where
  success : Bool
  solicitud : Solicitud
  articulos : List SolArticulo
  error : Option String
  message : Option String
deriving DecidableEq

/-- Outcome of the `fetch`: a network/parse rejection (the `catch`
branch) or a decoded response body. -/
inductive FetchResult where
  | fetchError
  | response (d : RespData)
deriving DecidableEq

/-- The module state `cargarArticulosSolicitud` can read or write:
the `esSolicitud` flag, the row table, the add-button disabled flag,
the source-warehouse selector and the info panel's visibility. -/
structure EState where
  esSolicitud : Bool
  tabla : Tabla
  btnAgregarDisabled : Bool
  bodegaOrigen : Option Int
  infoVisible : Bool
deriving DecidableEq

/-- `cargarArticulosSolicitud(solicitudId)` after the `fetch` resolves:
on `data.success` the mode flag is set, the header shown, the table
rebuilt from the response lines, the add button disabled and the
source warehouse pre-selected when truthy; otherwise (and on a network
error) only an alert is raised and the state is untouched. -/
def cargarArticulosSolicitud (st : EState) (r : FetchResult) :
    EState × Option Colegio.Alert :=
  match r with
  | .fetchError => (st, some .errorCargarArticulosCatch)
  | .response d =>
    if d.success then
      ({ esSolicitud := true
         infoVisible := true
         tabla := cargarArticulosEnTabla st.tabla d.articulos.length
         btnAgregarDisabled := true
         bodegaOrigen :=
           match d.solicitud.bodega_origen_id with
           | some b => if b = 0 then st.bodegaOrigen else some b
           | none => st.bodegaOrigen },
       none)
    else (st, some (.errorCargarArticulos (Colegio.jsOrStr d.error d.message)))

end EntregaArticulos

open EntregaArticulos EntregaBienes

set_option maxRecDepth 100000

/-- C1: in linked mode the submitted quantity is validated first against
the row's `data-pendiente` and then, independently, against its
`data-stock` snapshot; with pending 10 and stock 7, quantity 8 is
rejected as exceeding stock, quantity 10 is rejected as exceeding stock
(not pending), quantity 7 is accepted — and when both bounds are
violated (quantity 12) the pending check fires first. -/
theorem C1_linked_quantity_bounds :
    validarCantidadSolicitud { value := "8", dataPendiente := some "10", dataStock := some "7" }
      = some (.excedeStockEntrega (some 8) (some 7)) ∧
    validarCantidadSolicitud { value := "10", dataPendiente := some "10", dataStock := some "7" }
      = some (.excedeStockEntrega (some 10) (some 7)) ∧
    validarCantidadSolicitud { value := "7", dataPendiente := some "10", dataStock := some "7" }
      = none ∧
    validarCantidadSolicitud { value := "12", dataPendiente := some "10", dataStock := some "7" }
      = some (.excedePendiente (some 12) (some 10)) := by
  refine ⟨by decide, by decide, by decide, by decide⟩

/-- C2: `escapeHtml` does turn `<script>` into `&lt;script&gt;`, but
`mostrarInfoSolicitud` interpolates the request metadata (numero,
solicitante, departamento, motivo) into `innerHTML` without calling it:
with `numero = "<script>"` the produced markup contains the raw
`<script>` text and not its escaped form, contradicting the claim that
every request-metadata insertion is HTML-escaped. -/
theorem C2_request_metadata_inserted_unescaped :
    escapeHtml (.vstr "<script>") = "&lt;script&gt;" ∧
    ("<script>".toList <:+:
      (mostrarInfoSolicitudHtml
        { numero := "<script>", solicitante := "Ana", departamento := "TI",
          motivo := some "m", bodega_origen_id := none }).toList) ∧
    ¬ ("&lt;script&gt;".toList <:+:
      (mostrarInfoSolicitudHtml
        { numero := "<script>", solicitante := "Ana", departamento := "TI",
          motivo := some "m", bodega_origen_id := none }).toList) := by
  refine ⟨by decide, by decide, by decide⟩

/-- C8: `escapeHtml` maps every falsy input — `null`, `undefined`, the
empty string, `0`, `NaN`, `false` — to the empty string; in particular
the number `0` renders as empty text, not as the character `0`. -/
theorem C8_escapeHtml_falsy_empty :
    escapeHtml .vnull = "" ∧
    escapeHtml .vundefined = "" ∧
    escapeHtml (.vstr "") = "" ∧
    escapeHtml (.vnum (some 0)) = "" ∧
    escapeHtml (.vnum none) = "" ∧
    escapeHtml (.vbool false) = "" ∧
    escapeHtml (.vnum (some 0)) ≠ "0" := by
  refine ⟨by decide, by decide, by decide, by decide, by decide, by decide, by decide⟩

/-- Two manual-mode rows `{item 5, qty "3", lote "L1"}` and
`{item 9, qty "1", lote ""}`, both within stock, as the submit handler
finds them. -/
def c5Filas : List (Option FilaDom) :=
  [some { cantidad := some { value := "3", dataPendiente := none, dataStock := none }
          lote := some "L1"
          articulo := some { value := "5", selectedDataStock := some "100" }
          detalleSolicitud := none },
   some { cantidad := some { value := "1", dataPendiente := none, dataStock := none }
          lote := some ""
          articulo := some { value := "9", selectedDataStock := some "50" }
          detalleSolicitud := none }]

/-- The page around the two manual rows: two 5-cell rows in the
container and the hidden `detallesJson` field present. -/
def c5Dom : Dom :=
  { tbodyCells := some [5, 5], filas := c5Filas, detallesJsonExists := true }

/-- C5: serializing the two manual rows writes a JSON array of exactly
two records in row order, with `cantidad` the numbers 3 and 1 (not
strings), `lote` the string "L1" in the first record and `null` in the
second, and the submission proceeds. -/
theorem C5_manual_serialization_roundtrip :
    (validarYEnviarFormulario false 2 c5Dom).jsonWritten =
      some (.arr
        [.obj [("articulo_id", .num 5), ("cantidad", .num 3), ("lote", .str "L1")],
         .obj [("articulo_id", .num 9), ("cantidad", .num 1), ("lote", .null)]]) ∧
    (validarYEnviarFormulario false 2 c5Dom).formSubmitted = true :=
  ⟨rfl, rfl⟩

theorem agregarArticulo_spec (t : Tabla) :
    (agregarArticulo t).1.contadorFilas = t.contadorFilas + 1 ∧
    (agregarArticulo t).2 = t.contadorFilas := by
  unfold agregarArticulo
  by_cases h : childCount t = 1 ∧ t.emptyState = true
  · simp [h]
  · simp [h]

theorem eliminarFila_no_reset (t : Tabla) (id : Nat)
    (h : opResets t (.remove id) = false) :
    (eliminarFila t id).contadorFilas = t.contadorFilas := by
  unfold eliminarFila
  unfold opResets at h
  simp only [decide_eq_false_iff_not] at h
  simp [h]

theorem runOps_pairwise_of_resetFree (ops : List Op) :
    ∀ t : Tabla, resetFree t ops = true →
      List.Pairwise (· < ·) ((runOps t ops).2) ∧
      ∀ x ∈ (runOps t ops).2, t.contadorFilas ≤ x := by
  induction ops with
  | nil =>
    intro t _
    simp [runOps]
  | cons op ops ih =>
    intro t h
    unfold resetFree at h
    rw [Bool.and_eq_true, Bool.not_eq_true'] at h
    obtain ⟨h1, h2⟩ := h
    have hrec := ih (stepOp t op).1 h2
    match op with
    | .add =>
      have ha := agregarArticulo_spec t
      have hstep1 : (stepOp t .add).1 = (agregarArticulo t).1 := rfl
      have hstep2 : (stepOp t .add).2 = some (agregarArticulo t).2 := rfl
      have hids : (runOps t (.add :: ops)).2 =
          (agregarArticulo t).2 :: (runOps (agregarArticulo t).1 ops).2 := by
        simp [runOps, stepOp]
      rw [hstep1] at hrec
      rw [hids, ha.2]
      constructor
      · refine List.pairwise_cons.mpr ⟨?_, hrec.1⟩
        intro x hx
        have := hrec.2 x hx
        rw [ha.1] at this
        omega
      · intro x hx
        rcases List.mem_cons.mp hx with rfl | hx'
        · exact le_refl _
        · have := hrec.2 x hx'
          rw [ha.1] at this
          omega
    | .remove id =>
      have he := eliminarFila_no_reset t id h1
      have hstep1 : (stepOp t (.remove id)).1 = eliminarFila t id := rfl
      have hids : (runOps t (.remove id :: ops)).2 =
          (runOps (eliminarFila t id) ops).2 := by
        simp [runOps, stepOp]
      rw [hstep1] at hrec
      rw [hids]
      exact ⟨hrec.1, fun x hx => he ▸ hrec.2 x hx⟩

/-- C3 counterexample: adding a row, removing it (which empties the
registry and resets `contadorFilas` to 0 via `limpiarTabla`) and adding
again hands out the id 0 twice, so the handed-out ids are not strictly
increasing. -/
theorem C3_counterexample_id_reused :
    (runOps tablaInit [.add, .remove 0, .add]).2 = [0, 0] ∧
    ¬ List.Pairwise (· < ·) ((runOps tablaInit [.add, .remove 0, .add]).2) := by
  refine ⟨by decide, by decide⟩

/-- C3 (amended): along any add/remove sequence in which no removal
empties the registry (the only event that runs `limpiarTabla` and resets
the counter), every id handed out is strictly greater than every id
handed out before it. -/
theorem C3_ids_strictly_increasing_without_reset
    (t : Tabla) (ops : List Op) (h : resetFree t ops = true) :
    List.Pairwise (· < ·) ((runOps t ops).2) :=
  (runOps_pairwise_of_resetFree ops t h).1

theorem C3_witness :
    List.Pairwise (· < ·)
      ((runOps tablaInit [Op.add, Op.add, Op.remove 0, Op.add]).2) :=
  C3_ids_strictly_increasing_without_reset tablaInit
    [Op.add, Op.add, Op.remove 0, Op.add] (by decide)

/-- C4: when the request-lines fetch rejects, or resolves with
`success = false`, `cargarArticulosSolicitud` raises a user-facing alert
and returns the module state — `esSolicitud`, the row table, the add
button, the warehouse selector, the info panel — exactly as it was. -/
theorem C4_fetch_failure_leaves_state_unchanged
    (st : EState) (d : RespData) (h : d.success = false) :
    cargarArticulosSolicitud st .fetchError
      = (st, some .errorCargarArticulosCatch) ∧
    cargarArticulosSolicitud st (.response d)
      = (st, some (.errorCargarArticulos (jsOrStr d.error d.message))) := by
  constructor
  · rfl
  · unfold cargarArticulosSolicitud
    simp [h]

/-- A mid-session manual-mode state used to instantiate C4. -/
def c4State : EState :=
  { esSolicitud := false
    tabla := { contadorFilas := 3, rows := [0, 2], emptyState := false }
    btnAgregarDisabled := false
    bodegaOrigen := some 4
    infoVisible := false }

/-- An unsuccessful request-lines response body. -/
def c4Resp : RespData :=
  { success := false
    solicitud := { numero := "S-1", solicitante := "Ana", departamento := "TI",
                   motivo := none, bodega_origen_id := some 2 }
    articulos := []
    error := some "boom"
    message := none }

theorem C4_witness :
    c4Resp.success = false ∧
    cargarArticulosSolicitud c4State (.response c4Resp)
      = (c4State, some (.errorCargarArticulos (jsOrStr c4Resp.error c4Resp.message))) :=
  ⟨rfl, (C4_fetch_failure_leaves_state_unchanged c4State c4Resp rfl).2⟩

theorem detalleDe_pass (aid dsid : Option Int) (c : InputCantidad)
    (l : Option String) (d : Detalle) (h : detalleDe aid dsid c l = .pass d) :
    d = { articulo_id := aid, cantidad := parseFloatJS c.value,
          lote := jsOrNullStr l, detalle_solicitud_id := dsid } := by
  unfold detalleDe at h
  split at h
  · cases h
  · injection h with h
    exact h.symm

theorem rowStep_manual_no_detalle (f : FilaDom) (d : Detalle)
    (h : rowStep false f = .pass d) : d.detalle_solicitud_id = none := by
  unfold rowStep at h
  rcases hc : f.cantidad with _ | c <;> simp only [hc] at h
  · cases h
  · simp only [Bool.false_eq_true, if_false] at h
    rcases ha : f.articulo with _ | a <;> simp only [ha] at h
    · cases h
    · split at h
      · cases h
      · rcases hv : validarStockDisponible a c with _ | al <;> simp only [hv] at h
        · rw [detalleDe_pass _ _ _ _ _ h]
        · cases h

theorem itemsLoop_manual_no_detalle (filas : List (Option FilaDom)) :
    ∀ (n i : Nat) (ds : List Detalle), itemsLoop false filas i n = .ok ds →
      ∀ d ∈ ds, d.detalle_solicitud_id = none := by
  intro n
  induction n with
  | zero =>
    intro i ds h d hd
    unfold itemsLoop at h
    injection h with h
    subst h
    cases hd
  | succ n ih =>
    intro i ds h d hd
    unfold itemsLoop at h
    rcases hf : getFila filas i with _ | f <;> simp only [hf] at h
    · exact ih (i + 1) ds h d hd
    · rcases hr : rowStep false f with _ | a | d0 <;> simp only [hr] at h
      · exact ih (i + 1) ds h d hd
      · cases h
      · rcases hrec : itemsLoop false filas (i + 1) n with a' | ds' <;>
          simp only [hrec] at h
        · cases h
        · injection h with h
          subst h
          rcases List.mem_cons.mp hd with rfl | hd'
          · exact rowStep_manual_no_detalle f d hr
          · exact ih (i + 1) ds' hrec d hd'

/-- C6: every serialized item record has the keys `articulo_id`,
`cantidad`, `lote` plus `detalle_solicitud_id` exactly when that field
was attached — and in manual mode (`esSolicitud = false`) no record that
the submit loop produces ever carries the linking field. -/
theorem C6_linking_field_only_in_linked_mode :
    (∀ (contadorFilas : Nat) (dom : Dom) (ds : List Detalle),
        itemsLoop false dom.filas 0 contadorFilas = .ok ds →
        ∀ d ∈ ds, d.detalle_solicitud_id = none) ∧
    (∀ d : Detalle, (serializeDetalle d).keys =
        (if d.detalle_solicitud_id = none
         then ["articulo_id", "cantidad", "lote"]
         else ["articulo_id", "cantidad", "lote", "detalle_solicitud_id"])) := by
  constructor
  · intro contadorFilas dom ds h d hd
    exact itemsLoop_manual_no_detalle dom.filas contadorFilas 0 ds h d hd
  · intro d
    rcases hds : d.detalle_solicitud_id with _ | n <;>
      simp [serializeDetalle, Json.keys, hds]

/-- A one-row manual-mode page used to instantiate C6. -/
def c6Dom : Dom :=
  { tbodyCells := some [5]
    filas := [some { cantidad := some { value := "2", dataPendiente := none, dataStock := none }
                     lote := none
                     articulo := some { value := "4", selectedDataStock := some "9" }
                     detalleSolicitud := none }]
    detallesJsonExists := true }

theorem C6_witness :
    ∀ d ∈ [({ articulo_id := some 4, cantidad := some 2, lote := none,
              detalle_solicitud_id := none } : Detalle)],
      d.detalle_solicitud_id = none :=
  C6_linking_field_only_in_linked_mode.1 1 c6Dom _ (by decide)

/-- C7: the goods-form row check accepts exactly when an asset is
selected and the quantity input is present, non-empty and its
`parseInt` value is not `<= 0` (so an integer quantity of at least 1);
there is no stock or pending-quantity rule — the only alerts it can
raise are the missing-asset and invalid-quantity messages — a selected
row with an empty, missing or non-positive quantity is rejected with the
invalid-quantity message, and the loop aborts at the first violating row
it reaches, whatever follows. -/
theorem C7_bienes_validator_first_violation :
    (∀ f : BFilaDom, (∃ d, rowCheckB f = .ok d) ↔
        ((∃ av, f.activo = some av ∧ av ≠ "") ∧
         (∃ cv, f.cantidad = some cv ∧ cv ≠ "" ∧
            jsLeInt (parseIntJS cv) 0 = false))) ∧
    (∀ (f : BFilaDom) (a : Alert), rowCheckB f = .error a →
        a = .seleccioneActivoBien ∨ a = .ingreseCantidadValida) ∧
    (∀ f : BFilaDom, (∃ av, f.activo = some av ∧ av ≠ "") →
        (f.cantidad = none ∨
          ∃ cv, f.cantidad = some cv ∧
            (cv = "" ∨ jsLeInt (parseIntJS cv) 0 = true)) →
        rowCheckB f = .error .ingreseCantidadValida) ∧
    (∀ (filas : List (Option BFilaDom)) (i n : Nat) (f : BFilaDom) (a : Alert),
        getFilaB filas i = some f → rowCheckB f = .error a →
        bienesLoop filas i (n + 1) = .rejected a) := by
  refine ⟨?_, ?_, ?_, ?_⟩
  · intro f
    constructor
    · rintro ⟨d, hd⟩
      unfold rowCheckB at hd
      rcases ha : f.activo with _ | av <;> simp only [ha] at hd
      · cases hd
      · split at hd
        · cases hd
        · rcases hc : f.cantidad with _ | cv <;> simp only [hc] at hd
          · cases hd
          · split at hd
            · cases hd
            · rename_i hav hguard
              refine ⟨⟨av, rfl, hav⟩, ⟨cv, rfl, ?_, ?_⟩⟩
              · intro hcv
                exact hguard (Or.inl hcv)
              · by_contra hle
                exact hguard (Or.inr (by simpa using hle))
    · rintro ⟨⟨av, hav, havne⟩, ⟨cv, hcv, hcvne, hle⟩⟩
      unfold rowCheckB
      rw [hav, hcv]
      simp [havne, hcvne, hle]
  · intro f a h
    unfold rowCheckB at h
    rcases ha : f.activo with _ | av <;> simp only [ha] at h
    · injection h with h
      exact Or.inl h.symm
    · split at h
      · injection h with h
        exact Or.inl h.symm
      · rcases hc : f.cantidad with _ | cv <;> simp only [hc] at h
        · injection h with h
          exact Or.inr h.symm
        · split at h
          · injection h with h
            exact Or.inr h.symm
          · cases h
  · rintro f ⟨av, hav, havne⟩ hbad
    unfold rowCheckB
    rw [hav]
    simp only [havne, if_false]
    rcases hbad with hnone | ⟨cv, hcv, hbad'⟩
    · rw [hnone]
    · rw [hcv]
      rcases hbad' with rfl | hle
      · simp
      · simp [hle]
  · intro filas i n f a hf hr
    unfold bienesLoop
    simp only [hf, hr]

/-- Two goods rows, the first with quantity 0 and the second with no
selected asset, used to instantiate C7: the loop stops at the first. -/
def c7Filas : List (Option BFilaDom) :=
  [some { activo := some "3", cantidad := some "0", serie := none, estado := none },
   some { activo := some "", cantidad := some "2", serie := none, estado := none }]

theorem C7_witness :
    bienesLoop c7Filas 0 2 = .rejected .ingreseCantidadValida :=
  C7_bienes_validator_first_violation.2.2.2 c7Filas 0 1
    { activo := some "3", cantidad := some "0", serie := none, estado := none }
    .ingreseCantidadValida (by rfl) (by rfl)

/-- The record a row contributes when the loop neither skips nor
rejects it. -/
def rowPass (esSolicitud : Bool) (f : FilaDom) : Option Detalle :=
  match rowStep esSolicitud f with
  | .pass d => some d
  | _ => none

/-- The well-formed surviving rows of the index range `[i, i+n)`, in
ascending index order: missing rows and skipped rows contribute
nothing. -/
def survivors (esSolicitud : Bool) (filas : List (Option FilaDom)) (i n : Nat) :
    List Detalle :=
  (List.range' i n).filterMap (fun j => (getFila filas j).bind (rowPass esSolicitud))

theorem itemsLoop_ok_survivors (esSolicitud : Bool) (filas : List (Option FilaDom)) :
    ∀ (n i : Nat) (ds : List Detalle), itemsLoop esSolicitud filas i n = .ok ds →
      ds = survivors esSolicitud filas i n := by
  intro n
  induction n with
  | zero =>
    intro i ds h
    unfold itemsLoop at h
    injection h with h
    subst h
    rfl
  | succ n ih =>
    intro i ds h
    unfold itemsLoop at h
    have hrange : List.range' i (n + 1) = i :: List.range' (i + 1) n := rfl
    unfold survivors
    rw [hrange, List.filterMap_cons]
    rcases hf : getFila filas i with _ | f <;> simp only [hf] at h ⊢
    · exact ih (i + 1) ds h
    · rcases hr : rowStep esSolicitud f with _ | a | d0 <;>
        simp only [Option.some_bind, rowPass, hr] at h ⊢
      · exact ih (i + 1) ds h
      · cases h
      · rcases hrec : itemsLoop esSolicitud filas (i + 1) n with a' | ds' <;>
          simp only [hrec] at h
        · cases h
        · injection h with h
          subst h
          exact congrArg (d0 :: ·) (ih (i + 1) ds' hrec)

/-- C9: inside the item-form submit loop a row index whose row element
is present but whose quantity input is missing — or, in linked mode,
whose hidden article or request-line input is missing — is silently
skipped: the loop behaves exactly as if the index were not there, with
no alert and no record; and whenever the loop succeeds, its payload is
exactly the well-formed surviving rows in ascending row-id order. -/
theorem C9_malformed_rows_silently_skipped :
    (∀ (esSolicitud : Bool) (filas : List (Option FilaDom)) (i n : Nat) (f : FilaDom),
        getFila filas i = some f → f.cantidad = none →
        itemsLoop esSolicitud filas i (n + 1) = itemsLoop esSolicitud filas (i + 1) n) ∧
    (∀ (filas : List (Option FilaDom)) (i n : Nat) (f : FilaDom) (c : InputCantidad),
        getFila filas i = some f → f.cantidad = some c →
        (f.articulo = none ∨ f.detalleSolicitud = none) →
        itemsLoop true filas i (n + 1) = itemsLoop true filas (i + 1) n) ∧
    (∀ (esSolicitud : Bool) (filas : List (Option FilaDom)) (n : Nat) (ds : List Detalle),
        itemsLoop esSolicitud filas 0 n = .ok ds →
        ds = survivors esSolicitud filas 0 n) := by
  refine ⟨?_, ?_, ?_⟩
  · intro esSolicitud filas i n f hf hc
    have hr : rowStep esSolicitud f = .skip := by
      unfold rowStep
      rw [hc]
    conv_lhs => rw [itemsLoop]
    simp only [hf, hr]
  · intro filas i n f c hf hc hmiss
    have hr : rowStep true f = .skip := by
      unfold rowStep
      rw [hc]
      simp only [if_true]
      rcases hmiss with ha | hd
      · rw [ha]
      · rw [hd]
        rcases f.articulo with _ | a <;> rfl
    conv_lhs => rw [itemsLoop]
    simp only [hf, hr]
  · intro esSolicitud filas n ds h
    exact itemsLoop_ok_survivors esSolicitud filas n 0 ds h

/-- A two-row linked-mode page whose first row lost its hidden
request-line input, used to instantiate C9. -/
def c9Filas : List (Option FilaDom) :=
  [some { cantidad := some { value := "2", dataPendiente := some "5", dataStock := some "5" }
          lote := none
          articulo := some { value := "7", selectedDataStock := none }
          detalleSolicitud := none },
   some { cantidad := some { value := "1", dataPendiente := some "4", dataStock := some "6" }
          lote := some "LT"
          articulo := some { value := "8", selectedDataStock := none }
          detalleSolicitud := some "11" }]

theorem C9_witness :
    [({ articulo_id := some 8, cantidad := some 1, lote := some "LT",
        detalle_solicitud_id := some 11 } : Detalle)]
      = survivors true c9Filas 0 2 :=
  C9_malformed_rows_silently_skipped.2.2 true c9Filas 2 _ (by rfl)

theorem validar_cases (esSolicitud : Bool) (contadorFilas : Nat) (dom : Dom) :
    (∃ a, validarYEnviarFormulario esSolicitud contadorFilas dom = rejectEff a) ∨
    (∃ ds, itemsLoop esSolicitud dom.filas 0 contadorFilas = .ok ds ∧
      validarYEnviarFormulario esSolicitud contadorFilas dom =
        { alert := none
          jsonWritten :=
            if dom.detallesJsonExists
            then some (.arr (ds.map serializeDetalle)) else none
          formSubmitted := true }) := by
  unfold validarYEnviarFormulario
  rcases dom.tbodyCells with _ | cells
  · exact Or.inl ⟨_, rfl⟩
  · rcases cells with _ | ⟨c0, rest⟩
    · exact Or.inl ⟨_, rfl⟩
    · by_cases hc0 : c0 = 1
      · simp only [if_pos hc0]
        exact Or.inl ⟨_, rfl⟩
      · simp only [if_neg hc0]
        rcases hl : itemsLoop esSolicitud dom.filas 0 contadorFilas with a | ds
        · exact Or.inl ⟨a, rfl⟩
        · exact Or.inr ⟨ds, rfl, rfl⟩

theorem bienes_cases (contadorFilas : Nat) (dom : BDom) :
    (∃ a, validarYEnviarFormularioBienes contadorFilas dom = rejectEff a) ∨
    (∃ ds, bienesLoop dom.filas 0 contadorFilas = .ok ds ∧
      validarYEnviarFormularioBienes contadorFilas dom =
        { alert := none
          jsonWritten :=
            if dom.detallesJsonExists
            then some (.arr (ds.map serializeBDetalle)) else none
          formSubmitted := true }) := by
  unfold validarYEnviarFormularioBienes
  rcases dom.tbodyCells with _ | cells
  · exact Or.inl ⟨_, rfl⟩
  · rcases cells with _ | ⟨c0, rest⟩
    · exact Or.inl ⟨_, rfl⟩
    · by_cases hc0 : c0 = 1
      · simp only [if_pos hc0]
        exact Or.inl ⟨_, rfl⟩
      · simp only [if_neg hc0]
        rcases hl : bienesLoop dom.filas 0 contadorFilas with a | ds
        · exact Or.inl ⟨a, rfl⟩
        · exact Or.inr ⟨ds, rfl, rfl⟩

/-- C10: on either form, whenever the submit handler raises an alert it
writes nothing to the hidden `detallesJson` field and never calls
`e.target.submit()`; and whenever it does submit, every traversed row
passed validation (the loop returned `ok`) and the payload written is
exactly the serialization of that loop result. -/
theorem C10_failure_writes_nothing_and_blocks_submit :
    (∀ (esSolicitud : Bool) (contadorFilas : Nat) (dom : Dom) (a : Alert),
        (validarYEnviarFormulario esSolicitud contadorFilas dom).alert = some a →
        (validarYEnviarFormulario esSolicitud contadorFilas dom).jsonWritten = none ∧
        (validarYEnviarFormulario esSolicitud contadorFilas dom).formSubmitted = false) ∧
    (∀ (esSolicitud : Bool) (contadorFilas : Nat) (dom : Dom),
        (validarYEnviarFormulario esSolicitud contadorFilas dom).formSubmitted = true →
        ∃ ds, itemsLoop esSolicitud dom.filas 0 contadorFilas = .ok ds ∧
          (validarYEnviarFormulario esSolicitud contadorFilas dom).jsonWritten =
            (if dom.detallesJsonExists
             then some (.arr (ds.map serializeDetalle)) else none)) ∧
    (∀ (contadorFilas : Nat) (dom : BDom) (a : Alert),
        (validarYEnviarFormularioBienes contadorFilas dom).alert = some a →
        (validarYEnviarFormularioBienes contadorFilas dom).jsonWritten = none ∧
        (validarYEnviarFormularioBienes contadorFilas dom).formSubmitted = false) ∧
    (∀ (contadorFilas : Nat) (dom : BDom),
        (validarYEnviarFormularioBienes contadorFilas dom).formSubmitted = true →
        ∃ ds, bienesLoop dom.filas 0 contadorFilas = .ok ds ∧
          (validarYEnviarFormularioBienes contadorFilas dom).jsonWritten =
            (if dom.detallesJsonExists
             then some (.arr (ds.map serializeBDetalle)) else none)) := by
  refine ⟨?_, ?_, ?_, ?_⟩
  · intro esSolicitud contadorFilas dom a h
    rcases validar_cases esSolicitud contadorFilas dom with ⟨a', he⟩ | ⟨ds, _, he⟩
    · rw [he]
      exact ⟨rfl, rfl⟩
    · rw [he] at h
      cases h
  · intro esSolicitud contadorFilas dom h
    rcases validar_cases esSolicitud contadorFilas dom with ⟨a', he⟩ | ⟨ds, hl, he⟩
    · rw [he] at h
      cases h
    · exact ⟨ds, hl, by rw [he]⟩
  · intro contadorFilas dom a h
    rcases bienes_cases contadorFilas dom with ⟨a', he⟩ | ⟨ds, _, he⟩
    · rw [he]
      exact ⟨rfl, rfl⟩
    · rw [he] at h
      cases h
  · intro contadorFilas dom h
    rcases bienes_cases contadorFilas dom with ⟨a', he⟩ | ⟨ds, hl, he⟩
    · rw [he] at h
      cases h
    · exact ⟨ds, hl, by rw [he]⟩

/-- An item-form page whose single row has quantity 0, so submit-time
validation fails; used to instantiate C10. -/
def c10Dom : Dom :=
  { tbodyCells := some [5]
    filas := [some { cantidad := some { value := "0", dataPendiente := none, dataStock := none }
                     lote := none
                     articulo := some { value := "6", selectedDataStock := some "4" }
                     detalleSolicitud := none }]
    detallesJsonExists := true }

theorem C10_witness :
    (validarYEnviarFormulario false 1 c10Dom).jsonWritten = none ∧
    (validarYEnviarFormulario false 1 c10Dom).formSubmitted = false :=
  C10_failure_writes_nothing_and_blocks_submit.1 false 1 c10Dom
    .ingreseCantidadValida (by rfl)

end Colegio
